import Mathlib

/-!
Verification development for the orchestrator core (src/Orchestrator/orch/orch.py).

The Python source is shallowly embedded: strings are modelled as lists of
characters (`Str`), the Python string primitives used by the source
(`str.strip`, `str.split` with and without a separator and a maxsplit bound,
`int(...)`) are given as executable Lean functions, and each Python function
that the claims touch is translated into a pure Lean function over an explicit
state.  Wall-clock timestamps (`time.time()`) are modelled as abstract natural
ticks passed in as a `now` parameter; the network is modelled by an explicit
reachability oracle `connOk : Int → Bool` for outbound data connections.
Newline framing appended by `send_response` and the curses display layer
(colors, `update_event`, `external_commands`) are elided: they are explicitly
out of scope of the core per the specification.
-/

/-- Python strings are modelled as lists of characters. -/
abbrev Str := List Char

/-- Model of Python `str.strip()`: drop whitespace from both ends. -/
def pyStrip (s : Str) : Str :=
  ((s.dropWhile Char.isWhitespace).reverse.dropWhile Char.isWhitespace).reverse

/-- Split a list at the first occurrence of `sep`; `none` if `sep` is absent. -/
def breakSep (sep : Char) : Str → Option (Str × Str)
  | [] => none
  | c :: rest =>
    if c = sep then some ([], rest)
    else (breakSep sep rest).map (fun p => (c :: p.1, p.2))

/-- Model of Python `s.split(sep, maxsplit)` for a single-character separator:
at most `maxsplit` splits, the remainder (separators included) is the final
piece.  Like Python, consecutive separators yield empty pieces and the empty
string splits to `[[]]`. -/
def pySplitN (sep : Char) : Nat → Str → List Str
  | 0, s => [s]
  | Nat.succ n, s =>
    match breakSep sep s with
    | none => [s]
    | some (a, b) => a :: pySplitN sep n b

/-- Model of Python `s.split(sep)` with no maxsplit bound. -/
def pySplitAll (sep : Char) : Str → List Str
  | [] => [[]]
  | c :: rest =>
    if c = sep then [] :: pySplitAll sep rest
    else
      match pySplitAll sep rest with
      | [] => [[c]]
      | t :: ts => (c :: t) :: ts

/-- Helper for `pySplitWs`, accumulating the current token in reverse. -/
def pySplitWsAux : Str → Str → List Str
  | [], acc => if acc.isEmpty then [] else [acc.reverse]
  | c :: rest, acc =>
    if c.isWhitespace then
      if acc.isEmpty then pySplitWsAux rest []
      else acc.reverse :: pySplitWsAux rest []
    else pySplitWsAux rest (c :: acc)

/-- Model of Python `s.split()` with no argument: split on whitespace runs,
discarding empty pieces. -/
def pySplitWs (s : Str) : List Str := pySplitWsAux s []

/-- Helper for `pyIntDigits`: fold the remaining characters of an integer
literal, allowing a single underscore between digits as Python does. -/
def pyIntDigitsAux : Str → Nat → Option Nat
  | [], acc => some acc
  | '_' :: c :: rest, acc =>
    if c.isDigit then pyIntDigitsAux rest (acc * 10 + (c.toNat - 48)) else none
  | c :: rest, acc =>
    if c.isDigit then pyIntDigitsAux rest (acc * 10 + (c.toNat - 48)) else none

/-- Parse a nonempty ASCII digit string (with Python-style single underscores
between digits) to its numeric value. -/
def pyIntDigits : Str → Option Nat
  | [] => none
  | c :: rest =>
    if c.isDigit then pyIntDigitsAux rest (c.toNat - 48) else none

/-- Model of Python `int(s)` on ASCII input: strip whitespace, then an
optional sign followed by digits; anything else raises `ValueError`,
modelled as `none`. -/
def pyInt (s : Str) : Option Int :=
  match pyStrip s with
  | '+' :: rest => (pyIntDigits rest).map Int.ofNat
  | '-' :: rest => (pyIntDigits rest).map (fun n => -(n : Int))
  | t => (pyIntDigits t).map Int.ofNat

/-- Model of Python `s.isdigit()` on ASCII input: nonempty and all digits. -/
def pyIsDigit (s : Str) : Bool := !s.isEmpty && s.all Char.isDigit

/-- Model of Python `range(x, y + 1)` materialised as a list. -/
def intRange (x y : Int) : List Int :=
  (List.range (y + 1 - x).toNat).map (fun i => x + (i : Int))

/-- Embeds `parse_port_range` (orch.py lines 120-136): split the range string
on commas; a part containing a dash contributes `range(start, end + 1)` when
both endpoints parse as integers (otherwise it is skipped, as the
`ValueError` is caught); a purely numeric part contributes itself; anything
else is skipped. -/
def parse_port_range (port_range_str : Str) : List Int :=
  (pySplitAll ',' port_range_str).foldl
    (fun acc part =>
      if part.contains '-' then
        match pySplitAll '-' part with
        | [a, b] =>
          match pyInt a, pyInt b with
          | some x, some y => acc ++ intRange x y
          | _, _ => acc
        | _ => acc
      else if pyIsDigit part then acc ++ [Int.ofNat ((pyIntDigits part).getD 0)]
      else acc)
    []

/-- A peripheral registry entry, mirroring the dict built by
`process_response` and `register_peripheral`.  Entries created by discovery
carry no `data_port` key, modelled as `none`. -/
structure Peripheral where
  name : Str
  uuid : Str
  config : Str
  port : Int
  last_seen : Nat
  data_port : Option Int := none
deriving Repr, DecidableEq

/-- Replace the first element satisfying `pred` by `a`, mirroring
`next(...)` followed by a dict `update` that overwrites every field. -/
def replaceFirst (pred : α → Bool) (a : α) : List α → List α
  | [] => []
  | x :: xs => if pred x then a :: xs else x :: replaceFirst pred a xs

/-- Remove the first element satisfying `pred`, mirroring Python
`list.remove` applied to the first match found by `next(...)`. -/
def removeFirstBy (pred : α → Bool) : List α → List α
  | [] => []
  | x :: xs => if pred x then xs else x :: removeFirstBy pred xs

/-- Embeds `register_peripheral` (orch.py lines 369-401): build the entry,
draw the data port from the configured range at index
`len(peripherals) % len(range)` (an empty range raises `ZeroDivisionError`
in Python, modelled as `Except.error`), then update the first entry with the
same UUID in place or append a new entry.  Returns the new registry and the
assigned data port. -/
def register_peripheral (name peripheral_uuid : Str) (port : Int) (now : Nat)
    (data_port_range : Str) (registry : List Peripheral) :
    Except String (List Peripheral × Int) :=
  let available_data_ports := parse_port_range data_port_range
  if h : available_data_ports.length = 0 then
    .error "ZeroDivisionError: integer modulo by zero"
  else
    let assigned_data_port :=
      available_data_ports.get
        ⟨registry.length % available_data_ports.length,
         Nat.mod_lt _ (Nat.pos_of_ne_zero h)⟩
    let peripheral : Peripheral :=
      { name := name, uuid := peripheral_uuid, config := [], port := port,
        last_seen := now, data_port := some assigned_data_port }
    let registry2 :=
      if registry.any (fun p => p.uuid == peripheral_uuid) then
        replaceFirst (fun p => p.uuid == peripheral_uuid) peripheral registry
      else registry ++ [peripheral]
    .ok (registry2, assigned_data_port)

example : parse_port_range "6001-6002".data = [6001, 6002] := by decide

example :
    register_peripheral "a".data "u1".data 100 0 "6001-6002".data [] =
      .ok ([{ name := "a".data, uuid := "u1".data, config := [], port := 100,
              last_seen := 0, data_port := some 6001 }], 6001) := by rfl

/-- A route-table entry, mirroring the dict built by `add_route`
(orch.py lines 501-508). -/
structure Route where
  name : Str
  incoming : Str
  outgoing : Str
  incoming_port : Int
  outgoing_port : Int
  last_used : Option Nat
deriving Repr, DecidableEq

/-- Embeds `add_route` (orch.py lines 489-511): look up both peripherals by
display name (first match), fail if either is absent or a route with the
given name already exists, otherwise append one route caching the current
ports of the two peripherals.  Returns the new route table and the response
message (quote characters around names are omitted from the message
literals). -/
def add_route (route_name incoming_name outgoing_name : Str)
    (registry : List Peripheral) (routes : List Route) : List Route × Str :=
  match registry.find? (fun p => p.name == incoming_name) with
  | none => (routes, "Incoming peripheral ".data ++ incoming_name ++ " not found.".data)
  | some incoming =>
    match registry.find? (fun p => p.name == outgoing_name) with
    | none => (routes, "Outgoing peripheral ".data ++ outgoing_name ++ " not found.".data)
    | some outgoing =>
      if routes.any (fun r => r.name == route_name) then
        (routes, "Route ".data ++ route_name ++ " already exists.".data)
      else
        (routes ++ [{ name := route_name, incoming := incoming.uuid,
                      outgoing := outgoing.uuid, incoming_port := incoming.port,
                      outgoing_port := outgoing.port, last_used := none }],
         "Route ".data ++ route_name ++ " added successfully.".data)

/-- Embeds `remove_route` (orch.py lines 514-527): find the first route with
the given name; if absent return an error message leaving the table
unchanged, otherwise remove exactly that route. -/
def remove_route (route_name : Str) (routes : List Route) : List Route × Str :=
  match routes.find? (fun r => r.name == route_name) with
  | none => (routes, "Route ".data ++ route_name ++ " not found.".data)
  | some _ =>
    (removeFirstBy (fun r => r.name == route_name) routes,
     "Route ".data ++ route_name ++ " removed successfully.".data)

/-- Embeds the peripheral removal performed by `remove_peripheral_menu`
(orch.py line 1054): keep every entry whose UUID differs from the selected
one. -/
def remove_peripheral (selected_uuid : Str) (registry : List Peripheral) :
    List Peripheral :=
  registry.filter (fun p => !(p.uuid == selected_uuid))

/-- Result of one call of `handle_incoming_data`: the in-memory route table
after the call (equal to the file content whenever a write happened), the
payload lines sent to destination ports, the activity-log lines, whether the
no-route event was logged, and whether the routes file was rewritten. -/
structure ForwardResult where
  routes : List Route
  sends : List (Int × Str)
  logs : List Str
  noRoute : Bool
  wrote : Bool
deriving Repr, DecidableEq

/-- Embeds `handle_incoming_data` (orch.py lines 564-588): reload the route
table from its persisted file, filter to routes whose source UUID matches;
if none match, log the no-route event and stop.  Otherwise, for each
matching route whose destination connection succeeds (per the `connOk`
oracle), send the payload, stamp `last_used`, and rewrite the routes file;
failures are logged and skipped.  Peripheral display names in the log text
are elided. -/
def handle_incoming_data (peripheral_uuid data : Str) (routesFile : List Route)
    (connOk : Int → Bool) (now : Nat) : ForwardResult :=
  let routes := routesFile
  let matching_routes := routes.filter (fun r => r.incoming == peripheral_uuid)
  if matching_routes.isEmpty then
    { routes := routes, sends := [],
      logs := ["No routes found for peripheral UUID ".data ++ peripheral_uuid],
      noRoute := true, wrote := false }
  else
    let delivered := fun r : Route =>
      r.incoming == peripheral_uuid && connOk r.outgoing_port
    { routes := routes.map (fun r =>
        if delivered r then { r with last_used := some now } else r),
      sends := (routes.filter delivered).map (fun r => (r.outgoing_port, data)),
      logs := matching_routes.map (fun r =>
        if connOk r.outgoing_port then
          "sent data via route ".data ++ r.name
        else
          "Error forwarding data on route ".data ++ r.name),
      noRoute := false,
      wrote := routes.any delivered }

/-- Embeds the UUID check of `process_response` (orch.py line 192): the
regular expression `[a-fA-F0-9-]` repeated exactly 36 times, anchored at
both ends. -/
def uuid_pattern (s : Str) : Bool :=
  s.length == 36 &&
    s.all (fun c =>
      c.isDigit || ('a' ≤ c && c ≤ 'f') || ('A' ≤ c && c ≤ 'F') || c == '-')

/-- Embeds `process_response` (orch.py lines 182-235) as the source executes:
strip and split the response into lines; fewer than 3 lines logs the
incomplete-response message and returns.  Otherwise the source evaluates
`re.compile` on line 192, but the module never imports `re`, so every
response that passes the length check raises `NameError`; the registry
mutation on lines 200-235 is unreachable. -/
def process_response (response : Str) (port : Int) (_now : Nat)
    (registry : List Peripheral) : Except String (List Peripheral × List Str) :=
  let lines := pySplitAll '\n' (pyStrip response)
  if lines.length < 3 then
    .ok (registry,
      ["Incomplete response from port ".data ++ (toString port).data ++
        ". Expected at least 3 lines.".data])
  else
    .error "NameError: name re is not defined"

/-- Embeds the exception handling of `check_port` (orch.py lines 158-180)
around `process_response`: an exception is caught and logged, leaving the
registry untouched.  Returns the registry after the call and whether an
exception was raised. -/
def check_port_outcome (response : Str) (port : Int) (now : Nat)
    (registry : List Peripheral) : List Peripheral × Bool :=
  match process_response response port now registry with
  | .ok (r, _) => (r, false)
  | .error _ => (registry, true)

/-- Embeds the dict comprehension `{p[uuid]: p.get(port) for p in
peripherals}` of `port_sync` (orch.py line 612) as a lookup function: the
last entry with a given UUID wins, as in a Python dict built left to
right. -/
def uuid_to_port (peripherals : List Peripheral) (u : Str) : Option Int :=
  (peripherals.reverse.find? (fun p => p.uuid == u)).map (fun p => p.port)

/-- Embeds the per-route body of the `port_sync` loop (orch.py lines
615-625): rewrite the cached incoming and the cached outgoing port to the
port the registry currently records for that UUID whenever the UUID is
present in the map and the cached port differs, returning the rewritten
route and whether either field changed. -/
def port_sync_step (m : Str → Option Int) (route : Route) : Route × Bool :=
  let step1 :=
    match m route.incoming with
    | some p =>
      if route.incoming_port ≠ p then ({ route with incoming_port := p }, true)
      else (route, false)
    | none => (route, false)
  let step2 :=
    match m step1.1.outgoing with
    | some p =>
      if step1.1.outgoing_port ≠ p then
        ({ step1.1 with outgoing_port := p }, true)
      else (step1.1, false)
    | none => (step1.1, false)
  (step2.1, step1.2 || step2.2)

/-- Embeds the whole `port_sync` loop over the route table: fold the body
over the routes in order, collecting the rewritten routes and OR-ing the
per-route flags into the `updated` flag that decides the file write. -/
def port_sync_pass (peripherals : List Peripheral) (routes_data : List Route) :
    List Route × Bool :=
  let m := uuid_to_port peripherals
  routes_data.foldl
    (fun acc route =>
      let s := port_sync_step m route
      (acc.1 ++ [s.1], acc.2 || s.2))
    ([], false)

/-- The channel a command arrived on, mirroring the `source` argument of
`process_command`. -/
inductive Source where
  | port
  | curses
  | console
deriving Repr, DecidableEq

/-- The mutable state the command protocol touches: the peripheral registry
(`config[peripherals]`), the route table (kept in lockstep between memory
and the routes file by every modelled operation), and the configured
data-port range string. -/
structure PState where
  registry : List Peripheral
  routes : List Route
  data_port_range : Str
deriving Repr, DecidableEq

/-- The observable outcome of one `process_command` call: the state after
the call, the response lines written back on the originating channel, the
payload lines sent to destination data ports, the activity-log lines, the
boolean the function returns (continue in command mode), whether `exit(0)`
was called, and whether the process image restart of `/reset` was
reached. -/
structure CmdResult where
  st : PState
  responses : List Str
  sends : List (Int × Str)
  logs : List Str
  cont : Bool
  exited : Bool
  restarted : Bool
deriving Repr, DecidableEq

/-- Embeds `get_help_text` (orch.py lines 424-433); quote characters around
command names are omitted from the literal. -/
def get_help_text : Str :=
  ("Available commands:\n" ++
   "/help - Show this help message\n" ++
   "/list or /available - List known peripherals\n" ++
   "/routes - Manage routes\n" ++
   "    /routes help - Show routes command help\n" ++
   "/reset - Reset the orchestrator by deleting config files and restarting\n" ++
   "/exit - Exit command mode or exit the orchestrator\n").data

/-- Embeds `get_routes_help_text` (orch.py lines 479-486). -/
def get_routes_help_text : Str :=
  ("Routes command usage:\n" ++
   "/routes add <route-name> <incoming-peripheral-name> <outgoing-peripheral-name> - Add a new route\n" ++
   "/routes remove <route-name> - Remove an existing route\n" ++
   "/routes info - List all routes\n" ++
   "/routes help - Show this help message\n").data

/-- Embeds `list_peripherals` (orch.py lines 436-444); the wall-clock
rendering of the last-seen timestamp is abstracted to the decimal tick
value. -/
def list_peripherals (registry : List Peripheral) : Str :=
  if registry.isEmpty then "No peripherals discovered.".data
  else
    pyStrip
      ("Known peripherals:\n".data ++
        (registry.enum.map (fun ip =>
          (toString (ip.1 + 1)).data ++ ". ".data ++ ip.2.name ++
            " (UUID: ".data ++ ip.2.uuid ++ ", Port: ".data ++
            (toString ip.2.port).data ++ ", Last Seen: ".data ++
            (toString ip.2.last_seen).data ++ ")\n".data)).foldl (· ++ ·) [])

/-- Embeds `get_peripheral_name_by_uuid` (orch.py lines 550-556): the name
of the first registry entry with the given UUID, or the Unknown
placeholder. -/
def get_peripheral_name_by_uuid (registry : List Peripheral) (uuid_str : Str) : Str :=
  match registry.find? (fun p => p.uuid == uuid_str) with
  | some p => p.name
  | none => "Unknown".data

/-- Embeds `list_routes` (orch.py lines 530-547); the wall-clock rendering
of the last-used timestamp is abstracted to the decimal tick value. -/
def list_routes (registry : List Peripheral) (routes : List Route) : Str :=
  if routes.isEmpty then "No routes configured.".data
  else
    pyStrip
      ("Configured routes:\n".data ++
        (routes.map (fun r =>
          "Route Name: ".data ++ r.name ++ "\n".data ++
          "  From: ".data ++ get_peripheral_name_by_uuid registry r.incoming ++
            " (UUID: ".data ++ r.incoming ++ ", Port: ".data ++
            (toString r.incoming_port).data ++ ")\n".data ++
          "  To: ".data ++ get_peripheral_name_by_uuid registry r.outgoing ++
            " (UUID: ".data ++ r.outgoing ++ ", Port: ".data ++
            (toString r.outgoing_port).data ++ ")\n".data ++
          "  Last Used: ".data ++
            (match r.last_used with
             | some t => (toString t).data
             | none => "Never".data) ++ "\n".data)).foldl (· ++ ·) [])

/-- Embeds `process_routes_command` (orch.py lines 447-476): whitespace
split, per-subcommand arity checks, and dispatch to the route CRUD
operations.  Returns the state after the call and the response lines. -/
def process_routes_command (command : Str) (st : PState) : PState × List Str :=
  let tokens := pySplitWs command
  if tokens.length < 2 then
    (st, ["Invalid routes command. Type /routes help for usage.".data])
  else
    let action := tokens.getD 1 []
    if action = "help".data then (st, [get_routes_help_text])
    else if action = "add".data then
      if tokens.length ≠ 5 then
        (st, ["Usage: /routes add <route-name> <incoming-peripheral-name> <outgoing-peripheral-name>".data])
      else
        let result := add_route (tokens.getD 2 []) (tokens.getD 3 [])
          (tokens.getD 4 []) st.registry st.routes
        ({ st with routes := result.1 }, [result.2])
    else if action = "remove".data then
      if tokens.length ≠ 3 then
        (st, ["Usage: /routes remove <route-name>".data])
      else
        let result := remove_route (tokens.getD 2 []) st.routes
        ({ st with routes := result.1 }, [result.2])
    else if action = "info".data then (st, [list_routes st.registry st.routes])
    else (st, ["Unknown routes command. Type /routes help for usage.".data])

/-- Embeds `process_command` (orch.py lines 289-339), branch for branch in
source order; `startswith` tests mirror the source, so a command merely
prefixed by `/data`, `/register` or `/routes` still selects that branch.
The acknowledgment of a successful registration is sent on the raw
connection, which exists exactly for the port channel.  `/reset` clears the
registry, deletes both persisted files and re-executes the process image,
modelled by the `restarted` flag with both collections re-read as empty.
An uncaught Python exception (for example the `ZeroDivisionError` of an
empty data-port range) propagates to the caller as `Except.error`. -/
def process_command (command : Str) (source : Source) (st : PState)
    (connOk : Int → Bool) (now : Nat) : Except String CmdResult :=
  if "/data".data.isPrefixOf command then
    let tokens := pySplitN ' ' 2 (pyStrip command)
    if tokens.length ≥ 3 then
      let fw := handle_incoming_data (tokens.getD 1 []) (tokens.getD 2 [])
        st.routes connOk now
      .ok { st := { st with routes := fw.routes }, responses := [],
            sends := fw.sends, logs := fw.logs, cont := true,
            exited := false, restarted := false }
    else
      .ok { st := st, responses := ["Invalid data command format.".data],
            sends := [], logs := [], cont := true, exited := false,
            restarted := false }
  else if "/register".data.isPrefixOf command then
    let tokens := pySplitN ' ' 3 (pyStrip command)
    if tokens.length = 4 then
      match pyInt (tokens.getD 3 []) with
      | some port =>
        match register_peripheral (tokens.getD 1 []) (tokens.getD 2 []) port
          now st.data_port_range st.registry with
        | .ok (reg, dp) =>
          .ok { st := { st with registry := reg },
                responses :=
                  if source = Source.port then ["/ack ".data ++ (toString dp).data]
                  else [],
                sends := [],
                logs := ["Registered new peripheral ".data ++ (tokens.getD 1 [])],
                cont := true, exited := false, restarted := false }
        | .error e => .error e
      | none =>
        .ok { st := st, responses := ["Port must be an integer.".data],
              sends := [], logs := [], cont := true, exited := false,
              restarted := false }
    else
      .ok { st := st, responses := ["Invalid register command format.".data],
            sends := [], logs := [], cont := true, exited := false,
            restarted := false }
  else if command = "/help".data then
    .ok { st := st, responses := [get_help_text], sends := [], logs := [],
          cont := true, exited := false, restarted := false }
  else if command = "/list".data ∨ command = "/available".data then
    .ok { st := st, responses := [list_peripherals st.registry], sends := [],
          logs := [], cont := true, exited := false, restarted := false }
  else if "/routes".data.isPrefixOf command then
    let result := process_routes_command command st
    .ok { st := result.1, responses := result.2, sends := [], logs := [],
          cont := true, exited := false, restarted := false }
  else if command = "/reset".data then
    .ok { st := { st with registry := [], routes := [] },
          responses := ["Configuration files deleted and peripherals list cleared. Restarting orchestrator...".data],
          sends := [], logs := [], cont := true, exited := false,
          restarted := true }
  else if command = "/exit".data then
    match source with
    | Source.curses =>
      .ok { st := st, responses := ["Exiting command mode.".data], sends := [],
            logs := [], cont := false, exited := false, restarted := false }
    | Source.console =>
      .ok { st := st, responses := ["Exiting command mode.".data], sends := [],
            logs := [], cont := true, exited := true, restarted := false }
    | Source.port =>
      .ok { st := st, responses := ["Exiting command mode.".data], sends := [],
            logs := [], cont := true, exited := false, restarted := false }
  else
    .ok { st := st, responses := ["Unknown command. Type /help for available commands.".data],
          sends := [], logs := [], cont := true, exited := false,
          restarted := false }

/-- Embeds the line-dispatch loop of `handle_client_connection`
(orch.py lines 710-726) over an already-received list of lines: strip each
line, skip empty ones, and feed the rest to `process_command` on the port
channel.  The boolean `process_command` returns is discarded by the source
(line 721), so dispatch continues regardless; an uncaught exception is
logged and ends the session.  Returns the final state and the concatenated
response lines. -/
def handle_client_lines : List Str → PState → (Int → Bool) → Nat →
    PState × List Str
  | [], st, _, _ => (st, [])
  | l :: rest, st, connOk, now =>
    let command := pyStrip l
    if command.isEmpty then handle_client_lines rest st connOk now
    else
      match process_command command Source.port st connOk now with
      | .error _ => (st, [])
      | .ok res =>
        let tail := handle_client_lines rest res.st connOk now
        (tail.1, res.responses ++ tail.2)

/-- JSON values, modelling the content of the two persisted files.  The
textual encode/decode performed by the Python `json` library is external to
this repository and is assumed faithful, so files are modelled as holding
the JSON value itself. -/
inductive Json where
  | null
  | bool (b : Bool)
  | num (n : Int)
  | str (s : Str)
  | arr (elems : List Json)
  | obj (fields : List (Str × Json))

/-- Dict key lookup on a JSON object, first match (keys written by this
program are unique). -/
def jlookup (kvs : List (Str × Json)) (k : Str) : Option Json :=
  (kvs.find? (fun kv => kv.1 == k)).map (fun kv => kv.2)

/-- Dict key assignment on a JSON object: replace the value in place when
the key exists (insertion order preserved), append otherwise. -/
def jsetKey (kvs : List (Str × Json)) (k : Str) (v : Json) : List (Str × Json) :=
  if kvs.any (fun kv => kv.1 == k) then
    kvs.map (fun kv => if kv.1 == k then (kv.1, v) else kv)
  else kvs ++ [(k, v)]

/-- The JSON object `write_config` persists for one peripheral: the dict of
`process_response`/`register_peripheral`, with the `data_port` key present
exactly when it was assigned.  The float `last_seen` timestamp is modelled
as an integer tick. -/
def peripheralJson (p : Peripheral) : Json :=
  .obj ([("name".data, .str p.name), ("uuid".data, .str p.uuid),
         ("config".data, .str p.config), ("port".data, .num p.port),
         ("last_seen".data, .num (Int.ofNat p.last_seen))] ++
        (match p.data_port with
         | some dp => [("data_port".data, .num dp)]
         | none => []))

/-- The JSON object `write_config` (orch.py lines 95-100) persists: the
whole config dict, with the registry under the `peripherals` key. -/
def configJson (known_ports : Str) (scan_interval command_port : Int)
    (data_port_range : Str) (registry : List Peripheral)
    (script_uuid : Str) : Json :=
  .obj [("known_ports".data, .str known_ports),
        ("scan_interval".data, .num scan_interval),
        ("command_port".data, .num command_port),
        ("data_port_range".data, .str data_port_range),
        ("peripherals".data, .arr (registry.map peripheralJson)),
        ("script_uuid".data, .str script_uuid)]

/-- The JSON value `write_routes` (orch.py lines 115-118) persists for one
route; an absent last-used timestamp is `None`, hence JSON null. -/
def routeJson (r : Route) : Json :=
  .obj [("name".data, .str r.name), ("incoming".data, .str r.incoming),
        ("outgoing".data, .str r.outgoing),
        ("incoming_port".data, .num r.incoming_port),
        ("outgoing_port".data, .num r.outgoing_port),
        ("last_used".data,
         match r.last_used with
         | some t => .num (Int.ofNat t)
         | none => .null)]

/-- The JSON array `write_routes` persists: the whole route table. -/
def routesJson (routes : List Route) : Json := .arr (routes.map routeJson)

/-- Embeds `read_config` (orch.py lines 60-92) on the loaded JSON value
(`none` models a missing file, which rewrites the defaults): keep the loaded
object, resetting `peripherals` to an empty list when the key is missing or
not a list, and replacing `script_uuid` by a fresh UUID when missing or not
a string.  A non-object file raises `TypeError` at the `peripherals`
assignment. -/
def read_config_model (file : Option Json) (freshUuid : Str) :
    Except String Json :=
  match file with
  | none =>
    .ok (configJson "2000-8000".data 5 6000 "6001-6099".data [] freshUuid)
  | some (.obj kvs) =>
    let kvs1 :=
      match jlookup kvs "peripherals".data with
      | some (.arr _) => kvs
      | _ => jsetKey kvs "peripherals".data (.arr [])
    let kvs2 :=
      match jlookup kvs1 "script_uuid".data with
      | some (.str _) => kvs1
      | _ => jsetKey kvs1 "script_uuid".data (.str freshUuid)
    .ok (.obj kvs2)
  | some _ => .error "TypeError: loaded configuration is not an object"

/-- Embeds `read_routes` (orch.py lines 102-112) on the loaded JSON value:
the loaded value is taken as is; a missing file yields the empty table. -/
def read_routes_model (file : Option Json) : Json :=
  match file with
  | some j => j
  | none => .arr []

/-- A well-formed discovery probe response: 3 lines, the second being a
36-character hex-with-dashes UUID. -/
def c1_response : Str :=
  "sensorA\n0123456789abcdef0123456789abcdef0123\nconfig line A".data

/-- C1: the claim says a valid discovery response with an unseen UUID adds
exactly one registry entry.  The code cannot do this: `process_response`
evaluates `re.compile` (orch.py line 192) but the module never imports
`re`, so every response that passes the 3-line length check raises
`NameError`, which `check_port` catches and logs, leaving the registry
unchanged.  Evaluated here on a concrete well-formed response against the
empty registry: the second line satisfies the UUID pattern, the response
has 3 lines, the call raises, and the registry stays empty instead of
gaining an entry. -/
theorem c1_discovery_upsert_unreachable :
    uuid_pattern (pyStrip ((pySplitAll '\n' (pyStrip c1_response)).getD 1 [])) = true ∧
    (pySplitAll '\n' (pyStrip c1_response)).length = 3 ∧
    process_response c1_response 5000 0 [] =
      .error "NameError: name re is not defined" ∧
    check_port_outcome c1_response 5000 0 [] = ([], true) := by
  exact ⟨by decide, by decide, rfl, rfl⟩

/-- C8: reading back the persisted JSON value of the registry-bearing
config file reproduces it exactly (the validation in `read_config` accepts
every object `write_config` writes), and reading back the persisted route
table reproduces it exactly. -/
theorem c8_persist_reload_identity :
    ∀ (known_ports : Str) (scan_interval command_port : Int)
      (data_port_range : Str) (registry : List Peripheral)
      (script_uuid fresh : Str) (routes : List Route),
      read_config_model
        (some (configJson known_ports scan_interval command_port
          data_port_range registry script_uuid)) fresh =
        .ok (configJson known_ports scan_interval command_port
          data_port_range registry script_uuid) ∧
      read_routes_model (some (routesJson routes)) = routesJson routes := by
  intro known_ports scan_interval command_port data_port_range registry
    script_uuid fresh routes
  exact ⟨rfl, rfl⟩

/-- C10: an `/exit` command arriving on the port channel answers with the
exit message but returns `True` (continue), does not call `exit(0)`, and
does not restart; and because `handle_client_connection` discards the
returned boolean, a later line on the same connection (here `/help`) is
still dispatched. -/
theorem c10_exit_port_channel :
    ∀ (st : PState) (connOk : Int → Bool) (now : Nat),
      process_command "/exit".data Source.port st connOk now =
        .ok { st := st, responses := ["Exiting command mode.".data],
              sends := [], logs := [], cont := true, exited := false,
              restarted := false } ∧
      handle_client_lines ["/exit".data, "/help".data] st connOk now =
        (st, ["Exiting command mode.".data, get_help_text]) := by
  intro st connOk now
  exact ⟨rfl, rfl⟩

/-- Helper: `register_peripheral` on a fresh UUID and a nonempty parsed
port range appends exactly one entry, whose data port sits at index
`len(registry) % len(range)` of the parsed range. -/
lemma register_fresh_append (name u : Str) (port : Int) (now : Nat)
    (rangeStr : Str) (registry : List Peripheral)
    (hne : parse_port_range rangeStr ≠ [])
    (hfresh : ∀ q ∈ registry, q.uuid ≠ u) :
    register_peripheral name u port now rangeStr registry =
      .ok (registry ++
            [{ name := name, uuid := u, config := [], port := port,
               last_seen := now,
               data_port := some ((parse_port_range rangeStr).getD
                 (registry.length % (parse_port_range rangeStr).length) 0) }],
           (parse_port_range rangeStr).getD
             (registry.length % (parse_port_range rangeStr).length) 0) := by
  have hlen : (parse_port_range rangeStr).length ≠ 0 := by
    simpa [List.length_eq_zero] using hne
  have hany : registry.any (fun p => p.uuid == u) = false := by
    simp only [List.any_eq_false]
    intro q hq
    simpa using hfresh q hq
  have hlt : registry.length % (parse_port_range rangeStr).length <
      (parse_port_range rangeStr).length :=
    Nat.mod_lt _ (Nat.pos_of_ne_zero hlen)
  have hgetD : (parse_port_range rangeStr).getD
      (registry.length % (parse_port_range rangeStr).length) 0 =
      (parse_port_range rangeStr).get ⟨_, hlt⟩ := by
    simp [List.getD_eq_getElem?_getD, List.getElem?_eq_getElem hlt]
  rw [register_peripheral, dif_neg hlen]
  simp only [hany, Bool.false_eq_true, if_false, hgetD]

/-- Chain several `/register` invocations, collecting the assigned data
ports in order. -/
def registerSeq (entries : List (Str × Str × Int)) (now : Nat)
    (rangeStr : Str) (registry : List Peripheral) :
    Except String (List Peripheral × List Int) :=
  match entries with
  | [] => .ok (registry, [])
  | e :: rest =>
    match register_peripheral e.1 e.2.1 e.2.2 now rangeStr registry with
    | .error msg => .error msg
    | .ok (reg2, dp) =>
      match registerSeq rest now rangeStr reg2 with
      | .error msg => .error msg
      | .ok (reg3, dps) => .ok (reg3, dp :: dps)

/-- C3: `register_peripheral` with a fresh UUID draws the data port at
index `(current registry size) mod (range length)` of the configured
range; consequently three registrations with fresh UUIDs against the
2-entry range 6001-6002 are assigned the ports 6001, 6002, 6001. -/
theorem c3_data_port_round_robin :
    (∀ (name u : Str) (port : Int) (now : Nat) (rangeStr : Str)
       (registry : List Peripheral),
       parse_port_range rangeStr ≠ [] →
       (∀ q ∈ registry, q.uuid ≠ u) →
       register_peripheral name u port now rangeStr registry =
         .ok (registry ++
               [{ name := name, uuid := u, config := [], port := port,
                  last_seen := now,
                  data_port := some ((parse_port_range rangeStr).getD
                    (registry.length % (parse_port_range rangeStr).length) 0) }],
              (parse_port_range rangeStr).getD
                (registry.length % (parse_port_range rangeStr).length) 0)) ∧
    parse_port_range "6001-6002".data = [6001, 6002] ∧
    (registerSeq [("a".data, "u1".data, 100), ("b".data, "u2".data, 101),
        ("c".data, "u3".data, 102)] 0 "6001-6002".data []).map
      (fun r => r.2) = .ok [6001, 6002, 6001] := by
  refine ⟨register_fresh_append, by decide, rfl⟩

/-- Witness for C3: the general allocation statement applied to the first
concrete registration of the sequence. -/
theorem c3_data_port_round_robin_witness :
    register_peripheral "a".data "u1".data 100 0 "6001-6002".data [] =
      .ok ([{ name := "a".data, uuid := "u1".data, config := [], port := 100,
              last_seen := 0,
              data_port := some ((parse_port_range "6001-6002".data).getD
                (([] : List Peripheral).length %
                  (parse_port_range "6001-6002".data).length) 0) }],
           (parse_port_range "6001-6002".data).getD
             (([] : List Peripheral).length %
               (parse_port_range "6001-6002".data).length) 0) :=
  c3_data_port_round_robin.1 "a".data "u1".data 100 0 "6001-6002".data []
    (by decide) (by intro q hq; simp at hq)

/-- Concrete registry entry used by witnesses. -/
def periA : Peripheral :=
  { name := "A".data, uuid := "u1".data, config := [], port := 100,
    last_seen := 0, data_port := none }

/-- Concrete command-protocol state used by witnesses. -/
def stA : PState :=
  { registry := [periA], routes := [], data_port_range := "6001-6002".data }

/-- C5: a `/register` command with correct arity whose port token does not
parse as an integer is answered with the format error on the originating
channel and mutates nothing: the state after the call is exactly the state
before. -/
theorem c5_register_noninteger_port_rejected :
    ∀ (command t0 name u p : Str) (st : PState) (connOk : Int → Bool)
      (now : Nat),
      "/register".data.isPrefixOf command = true →
      pySplitN ' ' 3 (pyStrip command) = [t0, name, u, p] →
      pyInt p = none →
      process_command command Source.port st connOk now =
        .ok { st := st, responses := ["Port must be an integer.".data],
              sends := [], logs := [], cont := true, exited := false,
              restarted := false } := by
  intro command t0 name u p st connOk now hpre htok hint
  obtain ⟨rest, rfl⟩ := List.isPrefixOf_iff_prefix.mp hpre
  rw [process_command]
  rw [show ("/data".data.isPrefixOf ("/register".data ++ rest)) = false from rfl]
  rw [List.isPrefixOf_iff_prefix.mpr ⟨rest, rfl⟩]
  simp only [Bool.false_eq_true, if_false, if_true, htok, hint,
    List.length_cons, List.length_nil, List.getD_cons_succ, List.getD_cons_zero]

/-- Witness for C5: the concrete command from the specification example,
with a nonempty registry that must stay untouched. -/
theorem c5_register_noninteger_port_rejected_witness :
    process_command "/register name uuid abc".data Source.port stA
        (fun _ => true) 7 =
      .ok { st := stA, responses := ["Port must be an integer.".data],
            sends := [], logs := [], cont := true, exited := false,
            restarted := false } :=
  c5_register_noninteger_port_rejected "/register name uuid abc".data
    "/register".data "name".data "uuid".data "abc".data stA (fun _ => true) 7
    (by decide) (by decide) (by decide)

/-- C9: the `/register` path validates no UUID shape: any token in the UUID
position (here an arbitrary `u`, subject only to tokenisation) with correct
arity and an integer port upserts a registry entry carrying exactly that
string as its UUID; for a fresh UUID the registry gains exactly that one
appended entry and the data-port acknowledgment goes back on the
connection. -/
theorem c9_register_no_uuid_validation :
    ∀ (command t0 name u p : Str) (st : PState) (connOk : Int → Bool)
      (now : Nat) (k : Int),
      "/register".data.isPrefixOf command = true →
      pySplitN ' ' 3 (pyStrip command) = [t0, name, u, p] →
      pyInt p = some k →
      (∀ q ∈ st.registry, q.uuid ≠ u) →
      parse_port_range st.data_port_range ≠ [] →
      process_command command Source.port st connOk now =
        .ok { st := { st with registry := st.registry ++
                [{ name := name, uuid := u, config := [], port := k,
                   last_seen := now,
                   data_port := some ((parse_port_range st.data_port_range).getD
                     (st.registry.length %
                       (parse_port_range st.data_port_range).length) 0) }] },
              responses := ["/ack ".data ++
                (toString ((parse_port_range st.data_port_range).getD
                  (st.registry.length %
                    (parse_port_range st.data_port_range).length) 0)).data],
              sends := [],
              logs := ["Registered new peripheral ".data ++ name],
              cont := true, exited := false, restarted := false } := by
  intro command t0 name u p st connOk now k hpre htok hint hfresh hne
  obtain ⟨rest, rfl⟩ := List.isPrefixOf_iff_prefix.mp hpre
  rw [process_command]
  rw [show ("/data".data.isPrefixOf ("/register".data ++ rest)) = false from rfl]
  rw [List.isPrefixOf_iff_prefix.mpr ⟨rest, rfl⟩]
  simp only [Bool.false_eq_true, if_false, if_true, htok, hint,
    List.length_cons, List.length_nil, List.getD_cons_succ, List.getD_cons_zero,
    register_fresh_append name u k now st.data_port_range st.registry hne hfresh]

/-- Witness for C9: registering with the UUID token not-a-uuid, which the
discovery pattern would reject, still appends an entry carrying exactly
that string. -/
theorem c9_register_no_uuid_validation_witness :
    process_command "/register dev not-a-uuid 6005".data Source.port stA
        (fun _ => true) 9 =
      .ok { st := { stA with registry := stA.registry ++
              [{ name := "dev".data, uuid := "not-a-uuid".data, config := [],
                 port := 6005, last_seen := 9,
                 data_port := some ((parse_port_range stA.data_port_range).getD
                   (stA.registry.length %
                     (parse_port_range stA.data_port_range).length) 0) }] },
            responses := ["/ack ".data ++
              (toString ((parse_port_range stA.data_port_range).getD
                (stA.registry.length %
                  (parse_port_range stA.data_port_range).length) 0)).data],
            sends := [],
            logs := ["Registered new peripheral ".data ++ "dev".data],
            cont := true, exited := false, restarted := false } :=
  c9_register_no_uuid_validation "/register dev not-a-uuid 6005".data
    "/register".data "dev".data "not-a-uuid".data "6005".data stA
    (fun _ => true) 9 6005 (by decide) (by decide) (by decide)
    (by intro q hq; fin_cases hq; decide) (by decide)

/-- Helper: when no route lists the UUID as its source, the routing engine
only logs the no-route event. -/
lemma handle_incoming_data_no_route (u d : Str) (routesFile : List Route)
    (connOk : Int → Bool) (now : Nat)
    (hnone : ∀ r ∈ routesFile, r.incoming ≠ u) :
    handle_incoming_data u d routesFile connOk now =
      { routes := routesFile, sends := [],
        logs := ["No routes found for peripheral UUID ".data ++ u],
        noRoute := true, wrote := false } := by
  have hfil : routesFile.filter (fun r => r.incoming == u) = [] := by
    rw [List.filter_eq_nil_iff]
    intro r hr
    simpa using hnone r hr
  rw [handle_incoming_data]
  simp only [hfil, List.isEmpty_nil, if_true]

/-- C4: a forward for a UUID that matches no route source logs the no-route
event, sends nothing, rewrites no route field and no file; and through the
`/data` command path it also answers nothing to the caller. -/
theorem c4_no_route_noop :
    (∀ (u d : Str) (routesFile : List Route) (connOk : Int → Bool) (now : Nat),
       (∀ r ∈ routesFile, r.incoming ≠ u) →
       handle_incoming_data u d routesFile connOk now =
         { routes := routesFile, sends := [],
           logs := ["No routes found for peripheral UUID ".data ++ u],
           noRoute := true, wrote := false }) ∧
    (∀ (command t0 u d : Str) (st : PState) (connOk : Int → Bool) (now : Nat),
       "/data".data.isPrefixOf command = true →
       pySplitN ' ' 2 (pyStrip command) = [t0, u, d] →
       (∀ r ∈ st.routes, r.incoming ≠ u) →
       process_command command Source.port st connOk now =
         .ok { st := st, responses := [], sends := [],
               logs := ["No routes found for peripheral UUID ".data ++ u],
               cont := true, exited := false, restarted := false }) := by
  constructor
  · exact handle_incoming_data_no_route
  · intro command t0 u d st connOk now hpre htok hnone
    obtain ⟨rest, rfl⟩ := List.isPrefixOf_iff_prefix.mp hpre
    rw [process_command]
    rw [List.isPrefixOf_iff_prefix.mpr ⟨rest, rfl⟩]
    simp only [if_true, htok, List.length_cons, List.length_nil,
      List.getD_cons_succ, List.getD_cons_zero,
      handle_incoming_data_no_route u d st.routes connOk now hnone]
    rfl

/-- Concrete route used by witnesses: its source UUID is u1. -/
def routeR1 : Route :=
  { name := "r1".data, incoming := "u1".data, outgoing := "u2".data,
    incoming_port := 100, outgoing_port := 200, last_used := none }

/-- Witness for C4: a `/data` line for a UUID with no matching route, with
one unrelated route present that must stay untouched. -/
theorem c4_no_route_noop_witness :
    process_command "/data zz payload".data Source.port
        { registry := [periA], routes := [routeR1],
          data_port_range := "6001-6002".data } (fun _ => true) 3 =
      .ok { st := { registry := [periA], routes := [routeR1],
                    data_port_range := "6001-6002".data },
            responses := [], sends := [],
            logs := ["No routes found for peripheral UUID ".data ++ "zz".data],
            cont := true, exited := false, restarted := false } :=
  c4_no_route_noop.2 "/data zz payload".data "/data".data "zz".data
    "payload".data
    { registry := [periA], routes := [routeR1],
      data_port_range := "6001-6002".data } (fun _ => true) 3
    (by decide) (by decide) (by intro r hr; fin_cases hr; decide)

/-- Helper: removing the first match of a found predicate shortens the list
by exactly one. -/
lemma removeFirstBy_length {α} (p : α → Bool) (l : List α) (x : α)
    (h : l.find? p = some x) : (removeFirstBy p l).length + 1 = l.length := by
  induction l with
  | nil => simp at h
  | cons a as ih =>
    by_cases hpa : p a = true
    · simp [removeFirstBy, hpa]
    · rw [List.find?_cons_of_neg _ (by simpa using hpa)] at h
      simp [removeFirstBy, hpa, ih h]

/-- Helper: an element that does not satisfy the predicate survives
`removeFirstBy`. -/
lemma mem_removeFirstBy_of_not_pred {α} (p : α → Bool) (l : List α) (a : α)
    (ha : a ∈ l) (hpa : p a = false) : a ∈ removeFirstBy p l := by
  induction l with
  | nil => simp at ha
  | cons x xs ih =>
    rcases List.mem_cons.mp ha with rfl | hmem
    · simp [removeFirstBy, hpa]
    · by_cases hpx : p x = true
      · simpa [removeFirstBy, hpx] using hmem
      · simp only [removeFirstBy, hpx, if_false]
        exact List.mem_cons_of_mem _ (ih hmem)

/-- C6: the route CRUD contract.  `add` fails, leaving the table unchanged,
when the incoming peripheral is absent, when the outgoing peripheral is
absent, or when the route name already exists; otherwise it appends exactly
one route caching the two current ports.  `remove` fails, leaving the table
unchanged, when no route has the name; otherwise it deletes exactly the
first route with that name: the table shrinks by one and every
differently-named route survives. -/
theorem c6_route_crud_contract :
    (∀ (rn inName outName : Str) (registry : List Peripheral)
       (routes : List Route),
       registry.find? (fun q => q.name == inName) = none →
       add_route rn inName outName registry routes =
         (routes, "Incoming peripheral ".data ++ inName ++ " not found.".data)) ∧
    (∀ (rn inName outName : Str) (registry : List Peripheral)
       (routes : List Route) (i : Peripheral),
       registry.find? (fun q => q.name == inName) = some i →
       registry.find? (fun q => q.name == outName) = none →
       add_route rn inName outName registry routes =
         (routes, "Outgoing peripheral ".data ++ outName ++ " not found.".data)) ∧
    (∀ (rn inName outName : Str) (registry : List Peripheral)
       (routes : List Route) (i o : Peripheral),
       registry.find? (fun q => q.name == inName) = some i →
       registry.find? (fun q => q.name == outName) = some o →
       routes.any (fun r => r.name == rn) = true →
       add_route rn inName outName registry routes =
         (routes, "Route ".data ++ rn ++ " already exists.".data)) ∧
    (∀ (rn inName outName : Str) (registry : List Peripheral)
       (routes : List Route) (i o : Peripheral),
       registry.find? (fun q => q.name == inName) = some i →
       registry.find? (fun q => q.name == outName) = some o →
       routes.any (fun r => r.name == rn) = false →
       add_route rn inName outName registry routes =
         (routes ++ [{ name := rn, incoming := i.uuid, outgoing := o.uuid,
                       incoming_port := i.port, outgoing_port := o.port,
                       last_used := none }],
          "Route ".data ++ rn ++ " added successfully.".data)) ∧
    (∀ (rn : Str) (routes : List Route),
       routes.find? (fun r => r.name == rn) = none →
       remove_route rn routes =
         (routes, "Route ".data ++ rn ++ " not found.".data)) ∧
    (∀ (rn : Str) (routes : List Route) (r0 : Route),
       routes.find? (fun r => r.name == rn) = some r0 →
       remove_route rn routes =
         (removeFirstBy (fun r => r.name == rn) routes,
          "Route ".data ++ rn ++ " removed successfully.".data) ∧
       (remove_route rn routes).1.length + 1 = routes.length ∧
       (∀ r ∈ routes, r.name ≠ rn → r ∈ (remove_route rn routes).1)) := by
  refine ⟨?_, ?_, ?_, ?_, ?_, ?_⟩
  · intro rn inName outName registry routes h1
    simp [add_route, h1]
  · intro rn inName outName registry routes i h1 h2
    simp [add_route, h1, h2]
  · intro rn inName outName registry routes i o h1 h2 h3
    simp [add_route, h1, h2, h3]
  · intro rn inName outName registry routes i o h1 h2 h3
    simp [add_route, h1, h2, h3]
  · intro rn routes h1
    simp [remove_route, h1]
  · intro rn routes r0 h1
    refine ⟨by simp [remove_route, h1], ?_, ?_⟩
    · simp only [remove_route, h1]
      exact removeFirstBy_length _ _ _ h1
    · intro r hr hne
      simp only [remove_route, h1]
      exact mem_removeFirstBy_of_not_pred _ _ _ hr (by simpa using hne)

/-- Second concrete registry entry used by witnesses. -/
def periB : Peripheral :=
  { name := "B".data, uuid := "u2".data, config := [], port := 200,
    last_seen := 0, data_port := none }

/-- Witness for C6: a successful add appends exactly one route between the
two named peripherals, and a successful remove of that route restores the
empty table. -/
theorem c6_route_crud_contract_witness :
    add_route "r1".data "A".data "B".data [periA, periB] [] =
      ([{ name := "r1".data, incoming := periA.uuid, outgoing := periB.uuid,
          incoming_port := periA.port, outgoing_port := periB.port,
          last_used := none }],
       "Route ".data ++ "r1".data ++ " added successfully.".data) ∧
    remove_route "zz".data [routeR1] =
      ([routeR1], "Route ".data ++ "zz".data ++ " not found.".data) :=
  ⟨c6_route_crud_contract.2.2.2.1 "r1".data "A".data "B".data [periA, periB]
     [] periA periB (by decide) (by decide) (by decide),
   c6_route_crud_contract.2.2.2.2.1 "zz".data [routeR1] (by decide)⟩

/-- C2 counterexample: registering a fresh UUID under an already-used
display name does NOT yield pairwise-distinct names.  Starting from a
registry holding the peripheral named A, a `/register` for a second
peripheral also named A (fresh UUID u2) appends it verbatim — the source
performs no name disambiguation on this path — leaving two entries with
name A. -/
theorem c2_register_reused_name_counterexample :
    (∀ q ∈ [periA], q.uuid ≠ "u2".data) ∧
    register_peripheral "A".data "u2".data 101 0 "6001-6002".data [periA] =
      .ok ([periA,
            { name := "A".data, uuid := "u2".data, config := [], port := 101,
              last_seen := 0, data_port := some 6002 }], 6002) ∧
    ¬ (([periA,
         { name := "A".data, uuid := "u2".data, config := [], port := 101,
           last_seen := 0, data_port := some 6002 }].map
          Peripheral.name).Nodup) := by
  exact ⟨by decide, by rfl, by decide⟩

/-- Helper: replacing the first entry with a given UUID by an entry carrying
the same UUID leaves the UUID column unchanged. -/
lemma map_uuid_replaceFirst (u : Str) (e : Peripheral) (he : e.uuid = u)
    (l : List Peripheral) :
    (replaceFirst (fun p => p.uuid == u) e l).map Peripheral.uuid =
      l.map Peripheral.uuid := by
  induction l with
  | nil => rfl
  | cons x xs ih =>
    by_cases hx : (x.uuid == u) = true
    · have hxu : x.uuid = u := by simpa using hx
      simp [replaceFirst, hx, he, hxu]
    · simp [replaceFirst, hx, ih]

/-- C2 amended: every modelled registry mutation preserves UUID uniqueness
(hence at most one live entry per UUID), and removal also preserves name
uniqueness; name uniqueness is NOT preserved by `register_peripheral`, per
the counterexample. -/
theorem c2_registry_uuid_uniqueness_preserved :
    (∀ (name u : Str) (port : Int) (now : Nat) (rangeStr : Str)
       (registry reg2 : List Peripheral) (dp : Int),
       (registry.map Peripheral.uuid).Nodup →
       register_peripheral name u port now rangeStr registry = .ok (reg2, dp) →
       (reg2.map Peripheral.uuid).Nodup) ∧
    (∀ (u : Str) (registry : List Peripheral),
       (registry.map Peripheral.uuid).Nodup →
       ((remove_peripheral u registry).map Peripheral.uuid).Nodup) ∧
    (∀ (u : Str) (registry : List Peripheral),
       (registry.map Peripheral.name).Nodup →
       ((remove_peripheral u registry).map Peripheral.name).Nodup) := by
  refine ⟨?_, ?_, ?_⟩
  · intro name u port now rangeStr registry reg2 dp hnodup hok
    simp only [register_peripheral] at hok
    by_cases hlen : (parse_port_range rangeStr).length = 0
    · rw [dif_pos hlen] at hok
      exact absurd hok (by simp)
    · rw [dif_neg hlen] at hok
      by_cases hany : registry.any (fun p => p.uuid == u) = true
      · rw [if_pos hany] at hok
        simp only [Except.ok.injEq, Prod.mk.injEq] at hok
        obtain ⟨hreg, -⟩ := hok
        subst hreg
        rw [map_uuid_replaceFirst u _ rfl]
        exact hnodup
      · rw [if_neg hany] at hok
        simp only [Except.ok.injEq, Prod.mk.injEq] at hok
        obtain ⟨hreg, -⟩ := hok
        subst hreg
        rw [List.map_append]
        rw [List.nodup_append]
        refine ⟨hnodup, by simp, ?_⟩
        intro x hx
        simp only [List.map_cons, List.map_nil, List.mem_singleton]
        intro hxe
        rcases List.mem_map.mp hx with ⟨q, hq, rfl⟩
        rw [Bool.not_eq_true, List.any_eq_false] at hany
        exact absurd (by simpa using hxe) (by simpa using hany q hq)
  · intro u registry hnodup
    exact hnodup.sublist ((List.filter_sublist registry).map Peripheral.uuid)
  · intro u registry hnodup
    exact hnodup.sublist ((List.filter_sublist registry).map Peripheral.name)

/-- Witness for C2: the amended preservation statement applied to the
counterexample registration, whose result registry has distinct UUIDs even
though its names collide. -/
theorem c2_registry_uuid_uniqueness_preserved_witness :
    (([periA,
        { name := "A".data, uuid := "u2".data, config := [], port := 101,
          last_seen := 0, data_port := some 6002 }].map
         Peripheral.uuid)).Nodup :=
  c2_registry_uuid_uniqueness_preserved.1 "A".data "u2".data 101 0
    "6001-6002".data [periA]
    [periA,
     { name := "A".data, uuid := "u2".data, config := [], port := 101,
       last_seen := 0, data_port := some 6002 }] 6002 (by decide) (by rfl)

/-- Restates, in the words of the specification, what one synchronizer pass
does to a single route: each cached port becomes the port the registry maps
its UUID to, and is left untouched when the UUID is absent from the map. -/
def sync_route_ports (peripherals : List Peripheral) (r : Route) : Route :=
  { r with
    incoming_port := (uuid_to_port peripherals r.incoming).getD r.incoming_port,
    outgoing_port := (uuid_to_port peripherals r.outgoing).getD r.outgoing_port }

/-- Restates, in the words of the specification, when a route counts as
changed: one of its cached ports differs from the port the registry maps
its UUID to. -/
def route_stale (peripherals : List Peripheral) (r : Route) : Bool :=
  (match uuid_to_port peripherals r.incoming with
   | some p => decide (r.incoming_port ≠ p)
   | none => false) ||
  (match uuid_to_port peripherals r.outgoing with
   | some p => decide (r.outgoing_port ≠ p)
   | none => false)

/-- Helper: the loop body of `port_sync` computes exactly the
specification-side rewrite and staleness flag. -/
lemma port_sync_step_spec (peripherals : List Peripheral) (r : Route) :
    port_sync_step (uuid_to_port peripherals) r =
      (sync_route_ports peripherals r, route_stale peripherals r) := by
  rcases hin : uuid_to_port peripherals r.incoming with _ | p <;>
    rcases hout : uuid_to_port peripherals r.outgoing with _ | q
  · simp [port_sync_step, sync_route_ports, route_stale, hin, hout]
  · by_cases e2 : r.outgoing_port = q
    · subst e2
      simp [port_sync_step, sync_route_ports, route_stale, hin, hout]
    · simp [port_sync_step, sync_route_ports, route_stale, hin, hout, e2]
  · by_cases e1 : r.incoming_port = p
    · subst e1
      simp [port_sync_step, sync_route_ports, route_stale, hin, hout]
    · simp [port_sync_step, sync_route_ports, route_stale, hin, hout, e1]
  · by_cases e1 : r.incoming_port = p
    · subst e1
      by_cases e2 : r.outgoing_port = q
      · subst e2
        simp [port_sync_step, sync_route_ports, route_stale, hin, hout]
      · simp [port_sync_step, sync_route_ports, route_stale, hin, hout, e2]
    · by_cases e2 : r.outgoing_port = q
      · subst e2
        simp [port_sync_step, sync_route_ports, route_stale, hin, hout, e1]
      · simp [port_sync_step, sync_route_ports, route_stale, hin, hout, e1, e2]

/-- Helper: the fold of `port_sync_pass` accumulates the mapped table and
the OR of the per-route staleness flags. -/
lemma port_sync_pass_go (peripherals : List Peripheral) (rs : List Route) :
    ∀ acc : List Route × Bool,
      rs.foldl
        (fun acc route =>
          let s := port_sync_step (uuid_to_port peripherals) route
          (acc.1 ++ [s.1], acc.2 || s.2)) acc =
      (acc.1 ++ rs.map (sync_route_ports peripherals),
       acc.2 || rs.any (route_stale peripherals)) := by
  induction rs with
  | nil => intro acc; simp
  | cons r rs ih =>
    intro acc
    simp only [List.foldl_cons, List.map_cons, List.any_cons]
    rw [ih]
    simp [port_sync_step_spec, Bool.or_assoc]

/-- Helper: a route is stale exactly when the specification-side rewrite
actually changes it. -/
lemma route_stale_iff_changed (peripherals : List Peripheral) (r : Route) :
    route_stale peripherals r = true ↔
      sync_route_ports peripherals r ≠ r := by
  obtain ⟨n, i, o, ip, op, lu⟩ := r
  rcases hin : uuid_to_port peripherals i with _ | p <;>
    rcases hout : uuid_to_port peripherals o with _ | q
  · simp [route_stale, sync_route_ports, hin, hout]
  · by_cases e2 : op = q
    · subst e2
      simp [route_stale, sync_route_ports, hin, hout]
    · simp [route_stale, sync_route_ports, Route.mk.injEq, hin, hout, e2]
      omega
  · by_cases e1 : ip = p
    · subst e1
      simp [route_stale, sync_route_ports, hin, hout]
    · simp [route_stale, sync_route_ports, Route.mk.injEq, hin, hout, e1]
      omega
  · by_cases e1 : ip = p
    · subst e1
      by_cases e2 : op = q
      · subst e2
        simp [route_stale, sync_route_ports, hin, hout]
      · simp [route_stale, sync_route_ports, Route.mk.injEq, hin, hout, e2]
        omega
    · by_cases e2 : op = q
      · subst e2
        simp [route_stale, sync_route_ports, Route.mk.injEq, hin, hout, e1]
        omega
      · simp [route_stale, sync_route_ports, Route.mk.injEq, hin, hout, e1, e2]
        omega

/-- C7: one synchronizer pass rewrites each route to carry, in each cached
port slot, the registry port for its UUID (untouched when the UUID is
absent from the registry map), and raises the write-back flag exactly when
at least one route actually changed. -/
theorem c7_port_sync_characterisation :
    ∀ (peripherals : List Peripheral) (routes_data : List Route),
      port_sync_pass peripherals routes_data =
        (routes_data.map (sync_route_ports peripherals),
         routes_data.any (route_stale peripherals)) ∧
      (∀ r : Route, uuid_to_port peripherals r.incoming = none →
         uuid_to_port peripherals r.outgoing = none →
         sync_route_ports peripherals r = r) ∧
      ((port_sync_pass peripherals routes_data).2 = true ↔
        ∃ r ∈ routes_data, sync_route_ports peripherals r ≠ r) := by
  intro peripherals routes_data
  have hmain : port_sync_pass peripherals routes_data =
      (routes_data.map (sync_route_ports peripherals),
       routes_data.any (route_stale peripherals)) := by
    rw [port_sync_pass]
    rw [port_sync_pass_go peripherals routes_data ([], false)]
    simp
  refine ⟨hmain, ?_, ?_⟩
  · intro r hn ho
    simp [sync_route_ports, hn, ho]
  · rw [hmain]
    simp only [List.any_eq_true]
    constructor
    · rintro ⟨r, hr, hst⟩
      exact ⟨r, hr, (route_stale_iff_changed peripherals r).mp hst⟩
    · rintro ⟨r, hr, hch⟩
      exact ⟨r, hr, (route_stale_iff_changed peripherals r).mpr hch⟩

/-- Witness for C7: the characterisation applied to a concrete one-route
table against the singleton registry holding peripheral A, whose UUID u1 is
the source of the route but whose port already matches, while u2 is absent:
the pass leaves the table unchanged and does not write. -/
theorem c7_port_sync_characterisation_witness :
    port_sync_pass [periA] [routeR1] = ([routeR1], false) ∧
    sync_route_ports [periA] routeR1 = routeR1 := by
  constructor
  · rw [(c7_port_sync_characterisation [periA] [routeR1]).1]
    decide
  · decide
